import Mathlib

/-!
# Verification of the DubCheck credit-metered fact-checking backend

Shallow embedding of `src/backend/server.py` (Flask + MongoDB service).
Pure helpers are translated directly; MongoDB collection operations are
modelled as explicit state passing over a `DB` record (a `find_one` is a
first-match `List.find?`, an `update_one` updates the first matching list
element, an `insert_one` appends); outcomes of external calls (the Serper
HTTP search, the OpenAI chat call, `json.loads` on the model reply) are
supplied as explicit data, since their bodies are not part of the program.
Timestamps (`datetime.utcnow()`) are modelled as integers (seconds), with
`timedelta(days=7)` as `7 * 86400`.  Python floats that the program ever
produces are decimal literals, modelled as rationals.
-/

namespace DubCheck

/-- Timestamps: `datetime` values modelled as integer seconds. -/
abbrev Time := Int

/-! ## Data model (MongoDB documents) -/

/-- A user document, as created by `register_user` (server.py lines 295-304).
`credits` is an `Int` because the unconditional `$inc` in `fact_check_text`
can in principle drive it negative.  `credits_reset_date` is optional since
`fact_check_text` reads it with `user.get("credits_reset_date", ...)`. -/
structure User where
  id : String
  email : String
  name : String
  plan : String
  credits : Int
  credits_reset_date : Option Time
  created_at : Time
  is_active : Bool
deriving DecidableEq, Repr

/-- A session document (server.py lines 310-315).  `expires_at` is optional
since `get_user_from_session` reads it with `session.get("expires_at", ...)`. -/
structure Session where
  session_id : String
  user_id : String
  created_at : Time
  expires_at : Option Time
deriving DecidableEq, Repr

/-- An evidence source built by `search_web` (server.py lines 155-159). -/
structure Source where
  title : String
  url : String
  snippet : String
deriving DecidableEq, Repr

/-- A Python/JSON value as it can appear in the dict returned by
`json.loads` on the AI reply: numbers (decimal, as rationals), strings,
booleans, `null`, and anything else (lists/objects) collapsed to `other`. -/
inductive PyVal where
  | num (q : ℚ)
  | str (s : String)
  | boolean (b : Bool)
  | null
  | other
deriving DecidableEq, Repr

/-- A fact-check record document (server.py lines 395-404).  `sources` is an
`Option` because `search_web` can return Python `None` (see
`search_web` below); `reasoning` is a `PyVal` because the strict-parse path
stores `result.get("reasoning", ...)` of whatever JSON type it has. -/
structure FactCheck where
  id : String
  user_id : String
  text : String
  likelihood_score : ℚ
  reasoning : PyVal
  sources : Option (List Source)
  credits_used : Nat
  created_at : Time
deriving DecidableEq, Repr

/-- The three MongoDB collections used by the service. -/
structure DB where
  users : List User
  sessions : List Session
  fact_checks : List FactCheck
deriving DecidableEq, Repr

/-- `users_collection.find_one({"id": uid})`: first user with that id. -/
def findUser (db : DB) (uid : String) : Option User :=
  db.users.find? (fun u => u.id == uid)

/-- `sessions_collection.find_one({"session_id": sid})`. -/
def findSession (db : DB) (sid : String) : Option Session :=
  db.sessions.find? (fun s => s.session_id == sid)

/-- `update_one({"id": uid}, ...)`: apply `f` to the first matching user. -/
def updateUserFirst (users : List User) (uid : String) (f : User → User) :
    List User :=
  match users with
  | [] => []
  | u :: rest =>
    if u.id == uid then f u :: rest else u :: updateUserFirst rest uid f

/-! ## Plan catalog (server.py lines 39-75) -/

/-- A plan tier from the module-level `PLANS` dict. -/
structure Plan where
  plan_name : String
  weekly_credits : Nat
  priority_processing : Bool
  video_analysis : Bool
  max_family_members : Nat
deriving DecidableEq, Repr

/-- `PLANS.get(name, PLANS["free"])`: the plan dict with its fallback to the
free tier for unknown names (server.py line 114). -/
def planLookup (name : String) : Plan :=
  if name = "pro" then ⟨"pro", 100, true, false, 1⟩
  else if name = "premium" then ⟨"premium", 500, true, true, 1⟩
  else if name = "family_pro" then ⟨"family_pro", 100, true, false, 3⟩
  else if name = "family_premium" then ⟨"family_premium", 500, true, true, 5⟩
  else ⟨"free", 30, false, false, 1⟩

/-- Every plan grants at least 30 weekly credits. -/
theorem planLookup_weekly_ge_30 (name : String) :
    30 ≤ (planLookup name).weekly_credits := by
  unfold planLookup
  split
  · decide
  · split
    · decide
    · split
      · decide
      · split <;> decide

/-! ## Credit cost calculation (server.py lines 78-88) -/

/-- The whitespace set recognised by Python `str.split()` with no
arguments, restricted to ASCII (space, tab, LF, CR, VT, FF). -/
def pyIsSpace (c : Char) : Bool :=
  c = ' ' ∨ c = '\t' ∨ c = '\n' ∨ c = '\r' ∨ c = '\x0b' ∨ c = '\x0c'

/-- Count the maximal nonspace runs of a character list; `inWord` records
whether the previous character was part of a word.  `wordCountAux false cs`
equals `len(s.split())` in Python. -/
def wordCountAux (inWord : Bool) : List Char → Nat
  | [] => 0
  | c :: rest =>
    if pyIsSpace c then wordCountAux false rest
    else (if inWord then 0 else 1) + wordCountAux true rest

/-- `len(text.split())`: number of whitespace-delimited tokens. -/
def wordCount (text : String) : Nat :=
  wordCountAux false text.data

/-- `calculate_credits_needed` (server.py lines 78-88). -/
def calculate_credits_needed (text : String) : Nat :=
  let word_count := wordCount text
  if word_count ≤ 50 then 1
  else if word_count ≤ 200 then 2
  else if word_count ≤ 500 then 3
  else 5

/-- The cost is always one of 1, 2, 3, 5 — in particular at most 5. -/
theorem calculate_credits_needed_le_5 (text : String) :
    calculate_credits_needed text ≤ 5 := by
  unfold calculate_credits_needed
  dsimp only
  split
  · decide
  · split
    · decide
    · split <;> decide

/-! ## Session resolution (server.py lines 90-105) -/

/-- `get_user_from_session` (server.py lines 90-105): look up the session by
token; absent → `None`; expired (strictly, `utcnow() > expires_at`, with a
missing `expires_at` defaulting to `utcnow()`) → `None`; otherwise look up
the owning user (which yields `None` when the user no longer exists). -/
def get_user_from_session (db : DB) (now : Time) (session_id : String) :
    Option User :=
  match findSession db session_id with
  | none => none
  | some session =>
    if now > session.expires_at.getD now then none
    else findUser db session.user_id

/-! ## Weekly credit reset (server.py lines 107-125) -/

/-- `reset_weekly_credits` (server.py lines 107-125): re-find the user; if
absent do nothing; otherwise set credits to the plan's weekly allotment and
push the reset date a week into the future. -/
def reset_weekly_credits (db : DB) (now : Time) (uid : String) : DB :=
  match findUser db uid with
  | none => db
  | some u =>
    let plan := planLookup u.plan
    { db with
      users := updateUserFirst db.users uid (fun v =>
        { v with
          credits := (plan.weekly_credits : Int)
          credits_reset_date := some (now + 7 * 86400) }) }

/-! ## Evidence search (server.py lines 127-164) -/

/-- One entry of the `organic` list in the Serper response; each field is
read with `.get(key, "")`, so each is optional. -/
structure SerperResult where
  title : Option String
  link : Option String
  snippet : Option String
deriving DecidableEq, Repr

/-- The body of a Serper HTTP response: either `response.json()` raises
(also covering a missing or malformed `organic` field, all caught by the
surrounding `except`), or it yields an `organic` list (absent → `[]` via
`data.get("organic", [])`). -/
inductive SerperBody where
  | invalidJson
  | organic (results : List SerperResult)
deriving DecidableEq, Repr

/-- The outcome of `requests.post` to the search provider: an exception
(connection error or the 10-second timeout), or a response with a status. -/
inductive HttpOutcome where
  | exn (msg : String)
  | resp (status : Nat) (body : SerperBody)
deriving DecidableEq, Repr

/-- `search_web` (server.py lines 127-164).  Result is `Option` because the
Python function can return `None`: when the request succeeds with a non-200
status, control falls through the `if response.status_code == 200:` block to
the end of the function, so Python returns `None` — not `[]`. -/
def search_web (key_configured : Bool) (out : HttpOutcome) :
    Option (List Source) :=
  if !key_configured then some []
  else
    match out with
    | .exn _ => some []
    | .resp status body =>
      if status == 200 then
        match body with
        | .invalidJson => some []
        | .organic results =>
          some (results.map (fun r =>
            ⟨r.title.getD "", r.link.getD "", r.snippet.getD ""⟩))
      else none

/-! ## Python string helpers for the AI-reply fallback parser

These model the exact `str` operations used on server.py lines 225-231:
`split('\n')`, `lower()`, the `in` containment test, `split(':')`,
`strip()`, `replace(',', '')`, `replace('"', '')`, and `float(...)`. -/

/-- Python `s.split(sep)` for a single-character separator: split at every
occurrence, keeping empty pieces. -/
def splitOn (sep : Char) : List Char → List (List Char)
  | [] => [[]]
  | c :: rest =>
    if c = sep then [] :: splitOn sep rest
    else
      match splitOn sep rest with
      | [] => [[c]]
      | piece :: pieces => (c :: piece) :: pieces

/-- ASCII lowercasing of one character (the only case Python `lower()`
needs here, since the needle `"likelihood_score"` is ASCII). -/
def asciiLower (c : Char) : Char :=
  if 'A' ≤ c ∧ c ≤ 'Z' then Char.ofNat (c.toNat + 32) else c

/-- Python `needle in hay` substring containment on character lists. -/
def hasSub (needle : List Char) : List Char → Bool
  | [] => needle.isEmpty
  | c :: rest => needle.isPrefixOf (c :: rest) || hasSub needle rest

/-- Python `s.strip()`: drop ASCII whitespace from both ends. -/
def stripWs (cs : List Char) : List Char :=
  ((cs.dropWhile pyIsSpace).reverse.dropWhile pyIsSpace).reverse

/-- `s.replace(',', '').replace('"', '')`: delete all commas and double
quotes. -/
def removeCommasQuotes (cs : List Char) : List Char :=
  cs.filter (fun c => !(c = ',' ∨ c = '"'))

/-- Numeric value of a digit string (`[] ↦ 0`). -/
def digitsToNat (ds : List Char) : Nat :=
  ds.foldl (fun n c => 10 * n + (c.toNat - 48)) 0

/-- Split a list at the first character satisfying `p`, reporting whether a
split happened. -/
def splitOnce (p : Char → Bool) : List Char → List Char × Option (List Char)
  | [] => ([], none)
  | c :: rest =>
    if p c then ([], some rest)
    else
      let (a, b) := splitOnce p rest
      (c :: a, b)

/-- Consume an optional leading sign, returning whether it was `-` and the
rest. -/
def takeSign : List Char → Bool × List Char
  | '+' :: rest => (false, rest)
  | '-' :: rest => (true, rest)
  | cs => (false, cs)

/-- Parse an unsigned decimal mantissa `digits[.digits]` (at least one digit
overall, as Python `float` requires; `"5."` and `".5"` are accepted) into a
numerator/denominator pair. -/
def parseMantissa? (cs : List Char) : Option (Nat × Nat) :=
  match splitOnce (fun c => c = '.') cs with
  | (a, none) =>
    if a ≠ [] ∧ a.all Char.isDigit then some (digitsToNat a, 1) else none
  | (a, some b) =>
    if (a ≠ [] ∨ b ≠ []) ∧ a.all Char.isDigit ∧ b.all Char.isDigit then
      some (digitsToNat a * 10 ^ b.length + digitsToNat b, 10 ^ b.length)
    else none

/-- Python `float(str)` on the decimal forms the program can meet:
optional surrounding whitespace, optional sign, decimal mantissa, optional
`e`/`E` exponent.  (`inf`/`nan` and digit-group underscores are not
modelled: the scores of interest are finite decimals, modelled as ℚ.) -/
def pyFloat? (cs : List Char) : Option ℚ :=
  let cs1 := stripWs cs
  let (neg, cs2) := takeSign cs1
  let mk : Nat × Nat → ℚ := fun nd =>
    if neg then mkRat (-(nd.1 : Int)) nd.2 else mkRat nd.1 nd.2
  match splitOnce (fun c => c = 'e' ∨ c = 'E') cs2 with
  | (m, none) => (parseMantissa? m).map mk
  | (m, some ex) =>
    let (eneg, ed) := takeSign ex
    if ed ≠ [] ∧ ed.all Char.isDigit then
      (parseMantissa? m).map (fun nd =>
        if eneg then mk (nd.1, nd.2 * 10 ^ digitsToNat ed)
        else mk (nd.1 * 10 ^ digitsToNat ed, nd.2))
    else none

/-! ## AI adjudication (server.py lines 166-244) -/

/-- `float(v)` applied to a JSON value from the parsed reply dict: numbers
pass through, strings go through the float parser, booleans coerce to 0/1,
`null` and structured values raise `TypeError` (here `none`). -/
def pyFloatOfVal? : PyVal → Option ℚ
  | .num q => some q
  | .str s => pyFloat? s.data
  | .boolean b => some (if b then 1 else 0)
  | .null => none
  | .other => none

/-- `result.get(key, default)` on the dict returned by `json.loads`. -/
def dictGet (d : List (String × PyVal)) (k : String) (dflt : PyVal) : PyVal :=
  match d.find? (fun kv => kv.1 == k) with
  | some kv => kv.2
  | none => dflt

/-- Outcome of `json.loads(ai_response)` (server.py line 214): a decode
error, a JSON object (dict), or a non-object value (on which the subsequent
`.get` raises `AttributeError`). -/
inductive LoadsOutcome where
  | decodeError
  | dict (d : List (String × PyVal))
  | nonDict
deriving DecidableEq, Repr

/-- Outcome of the OpenAI chat call (server.py lines 200-210): a raised
transport/model exception, or a reply whose message content is `content`
and whose `json.loads` outcome is `parsed`. -/
inductive CallOutcome where
  | exn (msg : String)
  | reply (content : String) (parsed : LoadsOutcome)
deriving DecidableEq, Repr

/-- The field name scanned for in the fallback parser. -/
def scoreField : List Char := "likelihood_score".data

/-- One line of the fallback loop body (server.py lines 227-233): if the
lowercased line contains `"likelihood_score"`, take the segment after the
first colon (`split(':')[1]`; absent colon raises `IndexError`, caught),
strip it, delete commas and quotes and run `float` (failure raises
`ValueError`, caught).  `none` means the loop moves to the next line. -/
def lineScore? (line : List Char) : Option ℚ :=
  if hasSub scoreField (line.map asciiLower) then
    match (splitOn ':' line)[1]? with
    | some seg => pyFloat? (removeCommasQuotes (stripWs seg))
    | none => none
  else none

/-- The fallback extraction loop (server.py lines 221-233): scan the lines
in order; the first successfully parsed score wins (`break`); if no line
yields one the score stays at its initial `0.5`. -/
def extractScore : List (List Char) → ℚ
  | [] => 1 / 2
  | line :: rest =>
    match lineScore? line with
    | some v => v
    | none => extractScore rest

/-- The AI verdict shape built by `fact_check_with_ai`. -/
structure AIResult where
  likelihood_score : ℚ
  reasoning : PyVal
deriving DecidableEq, Repr

/-- The evidence block built on server.py lines 175-178: up to the first 3
sources, formatted and joined (total on a genuine list).  Kept for
faithfulness of the prompt construction; no claim depends on its text. -/
def sourcesContext (sources : List Source) : String :=
  String.intercalate "\n\n"
    ((sources.take 3).map (fun s =>
      "Source: " ++ s.title ++ "\nURL: " ++ s.url ++ "\nContent: " ++ s.snippet))

/-- The body of the `try:` block on server.py lines 199-238: the chat call
followed by reply parsing.  `Except.error` models an exception escaping the
block (a transport error, an `AttributeError` from `.get` on a non-dict, or
a `float()` failure in the strict path); the fallback path catches its own
exceptions and never raises. -/
def ai_try_block (call : CallOutcome) : Except String AIResult :=
  match call with
  | .exn msg => .error msg
  | .reply content parsed =>
    match parsed with
    | .decodeError =>
      .ok ⟨extractScore (splitOn '\n' content.data), .str content⟩
    | .nonDict => .error "object has no attribute get"
    | .dict d =>
      match pyFloatOfVal? (dictGet d "likelihood_score" (.num (1 / 2))) with
      | some q => .ok ⟨q, dictGet d "reasoning" (.str "Analysis completed")⟩
      | none => .error "could not convert value to float"

/-- `fact_check_with_ai` (server.py lines 166-244).  `sources` is `Option`
because the caller can hand it the `None` produced by `search_web`'s
fall-through: the source-context comprehension on lines 175-178 sits
*before* the `try:`, so subscripting `None` raises a `TypeError` that
escapes this function (hence `Except`).  On a genuine list the function
always returns a result: the final `except` converts any error from the
call or the strict parse into a neutral verdict. -/
def fact_check_with_ai (configured : Bool) (text : String)
    (sources : Option (List Source)) (call : CallOutcome) :
    Except String AIResult :=
  if !configured then
    .ok ⟨1 / 2, .str "AI fact-checking unavailable - OpenAI API key not configured"⟩
  else
    match sources with
    | none => .error "NoneType object is not subscriptable"
    | some srcs =>
      let _evidence := sourcesContext srcs
      let _prompt := "Text to fact-check: " ++ text
      match ai_try_block call with
      | .ok r => .ok r
      | .error e => .ok ⟨1 / 2, .str ("Error during AI analysis: " ++ e)⟩

/-! ## The fact-check orchestrator (server.py lines 354-417) -/

/-- Externally visible effects of one `fact_check_text` request, in the
order they are performed: invoking the web search (line 388), invoking the
AI adjudicator (line 391), inserting the fact-check record (line 406) and
decrementing the credits (lines 409-412). -/
inductive Event where
  | searched (query : String)
  | aiCalled
  | recordInserted (id : String)
  | charged (uid : String) (amount : Nat)
deriving DecidableEq, Repr

/-- The HTTP response of `/api/fact-check`, by status code. -/
inductive FCResponse where
  | invalidSession
  | textRequired
  | insufficientCredits
  | ok (record : FactCheck)
  | serverError (msg : String)
deriving DecidableEq, Repr

/-- The environment of one request: the current time, the configuration
flags, the outcomes of the two external calls, and the fresh UUID drawn for
the record. -/
structure FCEnv where
  now : Time
  search_key : Bool
  http : HttpOutcome
  ai_configured : Bool
  ai_call : CallOutcome
  fresh_id : String
deriving DecidableEq, Repr

/-- Result of one request: response, final database, effect trace. -/
structure FCOut where
  resp : FCResponse
  state : DB
  trace : List Event
deriving DecidableEq, Repr

/-- The credit-reset step of the handler (server.py lines 376-378): if
`utcnow()` is past the user's reset date (missing date defaults to now),
run `reset_weekly_credits` and re-find the user. -/
def refreshStep (db : DB) (now : Time) (u : User) : DB × Option User :=
  if now > u.credits_reset_date.getD now then
    let db1 := reset_weekly_credits db now u.id
    (db1, findUser db1 u.id)
  else (db, some u)

/-- The credit debit (server.py lines 409-412): an unconditional
`update_one` with `$inc: {"credits": -amount}` on the first matching user.
The decrement itself is atomic but carries no balance condition. -/
def chargeInc (db : DB) (uid : String) (amount : Nat) : DB :=
  { db with
    users := updateUserFirst db.users uid (fun v =>
      { v with credits := v.credits - (amount : Int) }) }

/-- `fact_check_text` (server.py lines 354-417), from the point where the
bearer token has been read from the `Authorization` header (transport
parsing is out of scope).  `text?` is the request body's `"text"` value
(`none` = absent; Python also treats `""` as falsy).  Steps: resolve the
session, validate the text, refresh credits if due, compute the cost,
advisory balance check, web search, AI adjudication, record insert, credit
debit. -/
def fact_check_text (db : DB) (env : FCEnv) (session_id : String)
    (text? : Option String) : FCOut :=
  match get_user_from_session db env.now session_id with
  | none => ⟨.invalidSession, db, []⟩
  | some u =>
    match text? with
    | none => ⟨.textRequired, db, []⟩
    | some text =>
      if text = "" then ⟨.textRequired, db, []⟩
      else
        match refreshStep db env.now u with
        | (db1, none) =>
          -- `find_one` after the reset returned no user: the subsequent
          -- `user["credits"]` raises and the outer handler answers 500.
          ⟨.serverError "NoneType object is not subscriptable", db1, []⟩
        | (db1, some u1) =>
          let credits_needed := calculate_credits_needed text
          if u1.credits < (credits_needed : Int) then
            ⟨.insufficientCredits, db1, []⟩
          else
            let search_query :=
              String.mk ("fact check verify: ".data ++ text.data.take 100)
            let sources? := search_web env.search_key env.http
            match fact_check_with_ai env.ai_configured text sources? env.ai_call with
            | .error e =>
              -- an exception escaping `fact_check_with_ai` is caught by the
              -- route's outer handler: 500, nothing persisted, no charge
              ⟨.serverError e, db1, [.searched search_query, .aiCalled]⟩
            | .ok ai =>
              let record : FactCheck :=
                { id := env.fresh_id
                  user_id := u1.id
                  text := text
                  likelihood_score := ai.likelihood_score
                  reasoning := ai.reasoning
                  sources := sources?
                  credits_used := credits_needed
                  created_at := env.now }
              let db2 := { db1 with fact_checks := db1.fact_checks ++ [record] }
              let db3 := chargeInc db2 u1.id credits_needed
              ⟨.ok record, db3,
                [.searched search_query, .aiCalled,
                 .recordInserted env.fresh_id, .charged u1.id credits_needed]⟩

/-! ## History listing (server.py lines 439-461) -/

/-- The Mongo sort key `("created_at", -1)`: descending by creation time. -/
def descByCreated (a b : FactCheck) : Prop :=
  b.created_at ≤ a.created_at

instance : DecidableRel descByCreated := fun a b =>
  inferInstanceAs (Decidable (b.created_at ≤ a.created_at))

instance : IsTotal FactCheck descByCreated :=
  ⟨fun a b => (Int.le_total b.created_at a.created_at).elim Or.inl Or.inr⟩

instance : IsTrans FactCheck descByCreated :=
  ⟨fun _ _ _ h1 h2 => le_trans h2 h1⟩

/-- The query of `get_user_fact_checks` (server.py lines 454-456):
`find({"user_id": uid}).sort("created_at", -1).limit(20)` — filter the
user's records, sort descending by creation time, take the first 20. -/
def get_user_fact_checks (db : DB) (uid : String) : List FactCheck :=
  (((db.fact_checks.filter (fun r => r.user_id == uid)).insertionSort
    descByCreated).take 20)

/-! ## Two racing requests over the charge section (server.py 383, 409-412)

Interleaving model of the shared `credits` balance of one user under two
concurrent `/api/fact-check` workers.  Each worker executes two atomic
steps against the shared balance: the advisory read-and-compare
`user["credits"] < credits_needed` of line 383 (on failure the worker
answers 402), and — after its search/AI/insert section, which does not
touch the balance — the unconditional atomic `$inc` decrement of lines
409-412.  A schedule is the order in which the two workers take their
steps. -/

/-- The phase a worker is in: before its advisory check, past the check,
finished after its decrement, or rejected with 402. -/
inductive WorkerPhase where
  | ready
  | passedCheck
  | succeeded
  | rejected
deriving DecidableEq, Repr

/-- Shared balance plus the phase of each worker. -/
structure RaceState where
  balance : Int
  w1 : WorkerPhase
  w2 : WorkerPhase
deriving DecidableEq, Repr

/-- One atomic step of a worker whose request costs `cost`. -/
def stepWorker (cost : Int) (bal : Int) :
    WorkerPhase → WorkerPhase × Int
  | .ready => if bal < cost then (.rejected, bal) else (.passedCheck, bal)
  | .passedCheck => (.succeeded, bal - cost)
  | p => (p, bal)

/-- Advance the scheduled worker (`true` = worker 1) by one step. -/
def raceStep (cost : Int) (s : RaceState) (who : Bool) : RaceState :=
  if who then
    let (p, b) := stepWorker cost s.balance s.w1
    { s with w1 := p, balance := b }
  else
    let (p, b) := stepWorker cost s.balance s.w2
    { s with w2 := p, balance := b }

/-- Run a schedule of worker steps. -/
def runRace (cost : Int) (sched : List Bool) (s : RaceState) : RaceState :=
  sched.foldl (raceStep cost) s

/-! ## Spec-side description of the fallback parser (for the refinement
claim about `fact_check_with_ai`'s non-JSON path)

Modelled from the spec's words (§4.5 step 4): "fall back to scanning the
reply line-by-line for a line containing the score field name, extracting
the first colon-delimited numeric token after stripping punctuation,
defaulting to 0.5 if none is found; the full raw reply becomes the
reasoning in this fallback path."  To be compared with the translation of
the source loop, `extractScore`. -/

/-- Spec-side score extraction from one line: on a line containing the
score field name, the token after the first colon, stripped of whitespace
and punctuation (commas/quotes), parsed as a number. -/
def spec_line_score (line : List Char) : Option ℚ :=
  if hasSub scoreField (line.map asciiLower) then
    ((splitOn ':' line)[1]?).bind
      (fun tok => pyFloat? (removeCommasQuotes (stripWs tok)))
  else none

/-- Spec-side scan: the first line that yields a score wins; default 0.5. -/
def spec_scan_score (raw : String) : ℚ :=
  ((splitOn '\n' raw.data).findSome? spec_line_score).getD (1 / 2)

/-- The per-line extraction of the source loop agrees with the spec-side
one. -/
theorem lineScore?_eq_spec (line : List Char) :
    lineScore? line = spec_line_score line := by
  unfold lineScore? spec_line_score
  cases h : (splitOn ':' line)[1]? <;> simp [h]

/-- The source's fallback loop computes exactly the spec-side scan. -/
theorem extractScore_eq_spec (lines : List (List Char)) :
    extractScore lines = (lines.findSome? spec_line_score).getD (1 / 2) := by
  induction lines with
  | nil => rfl
  | cons l rest ih =>
    unfold extractScore
    rw [List.findSome?_cons, lineScore?_eq_spec]
    cases spec_line_score l
    · exact ih
    · rfl

/-! ## Helper lemmas about session resolution and the credit reset -/

/-- A user returned by `get_user_from_session` is the first user document
with its id (so a later `find_one({"id": ...})` re-finds exactly it). -/
theorem find_user_of_session (db : DB) (now : Time) (sid : String) (u : User)
    (h : get_user_from_session db now sid = some u) :
    findUser db u.id = some u := by
  unfold get_user_from_session at h
  cases hs : findSession db sid with
  | none => rw [hs] at h; cases h
  | some s =>
    rw [hs] at h
    dsimp only at h
    by_cases hexp : now > s.expires_at.getD now
    · rw [if_pos hexp] at h; cases h
    · rw [if_neg hexp] at h
      have hid : u.id = s.user_id := by
        have hb := List.find?_some h
        exact eq_of_beq hb
      unfold findUser at h ⊢
      rw [hid]
      exact h

/-- `update_one` on the first matching document commutes with a subsequent
first-match `find_one`, provided the update keeps the id. -/
theorem find?_updateUserFirst (users : List User) (uid : String)
    (f : User → User) (hf : ∀ v, (f v).id = v.id) (u : User)
    (h : users.find? (fun x => x.id == uid) = some u) :
    (updateUserFirst users uid f).find? (fun x => x.id == uid) =
      some (f u) := by
  induction users with
  | nil => cases h
  | cons a rest ih =>
    by_cases ha : (a.id == uid) = true
    · rw [List.find?_cons_of_pos (p := fun x => x.id == uid) rest ha] at h
      injection h with h
      subst h
      unfold updateUserFirst
      rw [if_pos ha]
      apply List.find?_cons_of_pos
      show ((f a).id == uid) = true
      rw [hf]
      exact ha
    · rw [List.find?_cons_of_neg (p := fun x => x.id == uid) rest ha] at h
      unfold updateUserFirst
      rw [if_neg ha,
        List.find?_cons_of_neg (p := fun x : User => x.id == uid)
          (updateUserFirst rest uid f) ha]
      exact ih h

/-- Re-finding a user after `reset_weekly_credits` yields the user with its
credits set to the plan's weekly allotment. -/
theorem findUser_reset (db : DB) (now : Time) (u : User)
    (hfind : findUser db u.id = some u) :
    findUser (reset_weekly_credits db now u.id) u.id =
      some { u with
             credits := ((planLookup u.plan).weekly_credits : Int)
             credits_reset_date := some (now + 7 * 86400) } := by
  unfold reset_weekly_credits
  rw [hfind]
  dsimp only
  unfold findUser
  dsimp only
  exact find?_updateUserFirst db.users u.id
    (fun v => { v with
                credits := ((planLookup u.plan).weekly_credits : Int)
                credits_reset_date := some (now + 7 * 86400) })
    (fun v => rfl) u hfind

/-- If the user that comes out of the refresh step has fewer than 6
credits, the reset branch cannot have fired (a reset leaves at least 30
credits), so the refresh changed nothing. -/
theorem refresh_insufficient (db : DB) (now : Time) (u u1 : User) (db1 : DB)
    (hfind : findUser db u.id = some u)
    (hr : refreshStep db now u = (db1, some u1))
    (hlt : u1.credits < 6) :
    db1 = db ∧ u1 = u := by
  unfold refreshStep at hr
  by_cases hd : now > u.credits_reset_date.getD now
  · rw [if_pos hd] at hr
    exfalso
    have h2 := findUser_reset db now u hfind
    simp only [Prod.mk.injEq] at hr
    rw [hr.2] at h2
    injection h2 with h2
    have hcred : u1.credits = ((planLookup u.plan).weekly_credits : Int) := by
      rw [h2]
    have h30 := planLookup_weekly_ge_30 u.plan
    omega
  · rw [if_neg hd] at hr
    simp only [Prod.mk.injEq] at hr
    obtain ⟨h1, h2⟩ := hr
    injection h2 with h2
    exact ⟨h1.symm, h2.symm⟩

/-! ## Claim theorems -/

/-- C1: `calculate_credits_needed` returns exactly 1 credit when the
whitespace-delimited word count w satisfies w ≤ 50, 2 when 51 ≤ w ≤ 200,
3 when 201 ≤ w ≤ 500, and 5 when w > 500 — for every input text, hence in
particular at the boundary counts 50, 51, 200, 201, 500, 501. -/
theorem cost_tiers (text : String) :
    (wordCount text ≤ 50 → calculate_credits_needed text = 1) ∧
    (51 ≤ wordCount text ∧ wordCount text ≤ 200 →
      calculate_credits_needed text = 2) ∧
    (201 ≤ wordCount text ∧ wordCount text ≤ 500 →
      calculate_credits_needed text = 3) ∧
    (500 < wordCount text → calculate_credits_needed text = 5) := by
  unfold calculate_credits_needed
  dsimp only
  refine ⟨fun h => ?_, fun h => ?_, fun h => ?_, fun h => ?_⟩ <;>
    split_ifs <;> omega

/-- Witness for C1 at the boundary count 51: a text of 51 words costs 2. -/
theorem cost_tiers_boundary_51 :
    wordCount (String.mk (List.flatten (List.replicate 51 ['a', ' ']))) = 51 ∧
    calculate_credits_needed
      (String.mk (List.flatten (List.replicate 51 ['a', ' ']))) = 2 :=
  ⟨by decide,
   (cost_tiers (String.mk (List.flatten (List.replicate 51 ['a', ' '])))).2.1
     ⟨by decide, by decide⟩⟩

/-- C3 (code bug): `search_web` returns `[]` when the request raises
(network error / timeout) and when the body is invalid JSON, but on a
non-success HTTP status it falls off the end of the function and returns
Python `None` (`none` here), not an empty sequence. -/
theorem search_web_failure_modes :
    search_web true (.exn "ConnectTimeout") = some [] ∧
    search_web true (.resp 200 .invalidJson) = some [] ∧
    search_web true (.resp 500 (.organic [])) = none ∧
    search_web true (.resp 500 (.organic [])) ≠ some [] :=
  ⟨rfl, rfl, rfl, by decide⟩

/-- C6: `get_user_from_session` yields no user when the token matches no
session, when the matching session's stored expiry has passed, or when the
referenced user no longer exists; and whenever it does yield a user, the
token matched an unexpired session referencing exactly that user. -/
theorem session_resolution (db : DB) (now : Time) (sid : String) :
    (findSession db sid = none → get_user_from_session db now sid = none) ∧
    (∀ s e, findSession db sid = some s → s.expires_at = some e → now > e →
      get_user_from_session db now sid = none) ∧
    (∀ s, findSession db sid = some s → ¬now > s.expires_at.getD now →
      findUser db s.user_id = none → get_user_from_session db now sid = none) ∧
    (∀ u, get_user_from_session db now sid = some u →
      ∃ s, findSession db sid = some s ∧ ¬now > s.expires_at.getD now ∧
        findUser db s.user_id = some u) := by
  refine ⟨fun h => ?_, fun s e hs he hexp => ?_, fun s hs hexp hu => ?_,
    fun u h => ?_⟩
  · unfold get_user_from_session
    rw [h]
  · unfold get_user_from_session
    rw [hs]
    dsimp only
    rw [if_pos (by rw [he]; exact hexp)]
  · unfold get_user_from_session
    rw [hs]
    dsimp only
    rw [if_neg hexp]
    exact hu
  · unfold get_user_from_session at h
    cases hs : findSession db sid with
    | none => rw [hs] at h; cases h
    | some s =>
      rw [hs] at h
      dsimp only at h
      by_cases hexp : now > s.expires_at.getD now
      · rw [if_pos hexp] at h; cases h
      · rw [if_neg hexp] at h
        exact ⟨s, rfl, hexp, h⟩

/-- Example user for concrete witnesses. -/
def exUserA : User :=
  ⟨"u1", "a@example.com", "Alice", "free", 30, some 1000, 0, true⟩

/-- A session whose expiry (50) is in the past at `now = 100`. -/
def exSessionExpired : Session := ⟨"sx", "u1", 0, some 50⟩

def exDbExpired : DB := ⟨[exUserA], [exSessionExpired], []⟩

/-- Witness for C6: resolving an expired token yields no user. -/
theorem session_resolution_witness :
    get_user_from_session exDbExpired 100 "sx" = none :=
  (session_resolution exDbExpired 100 "sx").2.1 exSessionExpired 50
    (by decide) rfl (by decide)

/-- C10: a session stored without an expiry timestamp is treated as valid:
the lookup defaults the missing expiry to `now`, the strict comparison
`now > now` fails, and resolution proceeds to return the referenced user. -/
theorem missing_expiry_session_valid (db : DB) (now : Time) (sid : String)
    (s : Session) (hs : findSession db sid = some s)
    (he : s.expires_at = none) :
    get_user_from_session db now sid = findUser db s.user_id := by
  unfold get_user_from_session
  rw [hs]
  dsimp only
  rw [he]
  simp

/-- A session document with no `expires_at` field. -/
def exSessionNoExpiry : Session := ⟨"sn", "u1", 0, none⟩

def exDbNoExpiry : DB := ⟨[exUserA], [exSessionNoExpiry], []⟩

/-- Witness for C10: the user is returned through a session that stores no
expiry. -/
theorem missing_expiry_session_valid_witness :
    get_user_from_session exDbNoExpiry 100 "sn" = some exUserA := by
  rw [missing_expiry_session_valid exDbNoExpiry 100 "sn" exSessionNoExpiry
    (by decide) rfl]
  decide

/-- C8 (code bug): the advisory check of server.py line 383 followed by the
unconditional `$inc` of lines 409-412 is not an atomic conditional
decrement.  With a balance of exactly one cost unit (1 credit) and two
workers racing equal-cost charges, the schedule check₁ check₂ inc₁ inc₂
lets *both* workers pass the check and charge: both succeed (neither is
rejected with InsufficientCredits) and the balance is driven to −1 < 0. -/
theorem race_drives_balance_negative :
    runRace 1 [true, false, true, false] ⟨1, .ready, .ready⟩ =
      ⟨-1, .succeeded, .succeeded⟩ ∧
    (runRace 1 [true, false, true, false] ⟨1, .ready, .ready⟩).balance < 0 :=
  ⟨rfl, by decide⟩

/-- C4: on any genuine source list, `fact_check_with_ai` is total at its
boundary — it never lets an exception escape.  With no AI credential it
returns the fixed neutral verdict (score 0.5, "unavailable" reasoning);
a transport/model error during the call is converted into score 0.5 with
reasoning describing the error; and in every case the outcome is `.ok`. -/
theorem ai_never_raises_and_degrades :
    (∀ (text : String) (srcs : List Source) (call : CallOutcome),
      fact_check_with_ai false text (some srcs) call =
        .ok ⟨1 / 2,
          .str "AI fact-checking unavailable - OpenAI API key not configured"⟩) ∧
    (∀ (text : String) (srcs : List Source) (msg : String),
      fact_check_with_ai true text (some srcs) (.exn msg) =
        .ok ⟨1 / 2, .str ("Error during AI analysis: " ++ msg)⟩) ∧
    (∀ (configured : Bool) (text : String) (srcs : List Source)
      (call : CallOutcome),
      (fact_check_with_ai configured text (some srcs) call).isOk = true) := by
  refine ⟨fun _ _ _ => rfl, fun _ _ _ => rfl, fun cfg text srcs call => ?_⟩
  cases cfg
  · rfl
  · cases h : ai_try_block call <;>
      simp [fact_check_with_ai, h, Except.isOk, Except.toBool]

/-- C5: on every model reply that fails strict JSON parsing, the verdict's
score is exactly the spec-side line scan (`spec_scan_score`: first line
containing the score field name whose after-colon token parses, default
0.5) and the reasoning is the full raw reply; any score the scan parses is
returned as-is, with no clamping to [0,1]; and on the strict-parse path a
numeric `likelihood_score` field is likewise returned unclamped. -/
theorem ai_fallback_parse (text : String) (srcs : List Source)
    (raw : String) :
    (fact_check_with_ai true text (some srcs) (.reply raw .decodeError) =
      .ok ⟨spec_scan_score raw, .str raw⟩) ∧
    (∀ q : ℚ, (splitOn '\n' raw.data).findSome? spec_line_score = some q →
      fact_check_with_ai true text (some srcs) (.reply raw .decodeError) =
        .ok ⟨q, .str raw⟩) ∧
    (∀ (d : List (String × PyVal)) (q : ℚ),
      dictGet d "likelihood_score" (.num (1 / 2)) = .num q →
      fact_check_with_ai true text (some srcs) (.reply raw (.dict d)) =
        .ok ⟨q, dictGet d "reasoning" (.str "Analysis completed")⟩) := by
  have htry : ai_try_block (.reply raw .decodeError) =
      .ok ⟨spec_scan_score raw, .str raw⟩ := by
    unfold ai_try_block
    dsimp only
    rw [extractScore_eq_spec]
    rfl
  have hfb : fact_check_with_ai true text (some srcs)
      (.reply raw .decodeError) = .ok ⟨spec_scan_score raw, .str raw⟩ := by
    simp [fact_check_with_ai, htry]
  refine ⟨hfb, fun q hq => ?_, fun d q hd => ?_⟩
  · rw [hfb]
    unfold spec_scan_score
    rw [hq]
    rfl
  · have htry2 : ai_try_block (.reply raw (.dict d)) =
        .ok ⟨q, dictGet d "reasoning" (.str "Analysis completed")⟩ := by
      unfold ai_try_block
      dsimp only
      rw [hd]
      rfl
    simp [fact_check_with_ai, htry2]

/-- A reply that is not JSON and carries an out-of-range score. -/
def oorReply : String := "likelihood_score: 3.5"

/-- Witness for C5: the scan of `oorReply` parses 3.5, which lies outside
[0,1] and is returned exactly as-is. -/
theorem ai_fallback_parse_witness :
    (splitOn '\n' oorReply.data).findSome? spec_line_score =
      some (mkRat 7 2) ∧
    (1 : ℚ) < mkRat 7 2 ∧
    fact_check_with_ai true "t" (some []) (.reply oorReply .decodeError) =
      .ok ⟨mkRat 7 2, .str oorReply⟩ :=
  ⟨by decide, by decide,
   (ai_fallback_parse "t" [] oorReply).2.1 (mkRat 7 2) (by decide)⟩

/-- C2: whenever the user resolved for the request (after the credit
refresh step) has strictly fewer credits than the cost of the submitted
text, `fact_check_text` answers InsufficientCredits and has no side
effects: the database is returned exactly as it was (no FactCheckRecord
inserted, balance untouched — in particular a reset cannot have fired,
since a reset leaves at least 30 credits and every cost is at most 5) and
the effect trace is empty (no search and no AI call). -/
theorem insufficient_credits_aborts (db : DB) (env : FCEnv)
    (sid text : String) (u u1 : User) (db1 : DB)
    (hu : get_user_from_session db env.now sid = some u)
    (ht : text ≠ "")
    (hr : refreshStep db env.now u = (db1, some u1))
    (hc : u1.credits < (calculate_credits_needed text : Int)) :
    fact_check_text db env sid (some text) =
      ⟨.insufficientCredits, db, []⟩ := by
  have hle : (calculate_credits_needed text : Int) ≤ 5 := by
    exact_mod_cast calculate_credits_needed_le_5 text
  have hlt6 : u1.credits < 6 := by omega
  obtain ⟨hdb, -⟩ :=
    refresh_insufficient db env.now u u1 db1
      (find_user_of_session db env.now sid u hu) hr hlt6
  subst hdb
  unfold fact_check_text
  rw [hu]
  dsimp only
  rw [if_neg ht, hr]
  dsimp only
  rw [if_pos hc]

/-- A registered user whose balance has been spent down to 0. -/
def exUserPoor : User :=
  ⟨"u2", "p@example.com", "Pat", "free", 0, some 1000, 0, true⟩

def exSessionPoor : Session := ⟨"sp", "u2", 0, some 500⟩

def exDbPoor : DB := ⟨[exUserPoor], [exSessionPoor], []⟩

/-- Environment at time 100 (before both expiry 500 and reset date 1000). -/
def exEnvPoor : FCEnv :=
  ⟨100, false, .exn "down", false, .exn "down", "fid0"⟩

/-- Witness for C2: a 1-word text against a 0-credit user is rejected with
no change to any collection and no external calls. -/
theorem insufficient_credits_aborts_witness :
    fact_check_text exDbPoor exEnvPoor "sp" (some "hello") =
      ⟨.insufficientCredits, exDbPoor, []⟩ :=
  insufficient_credits_aborts exDbPoor exEnvPoor "sp" "hello" exUserPoor
    exUserPoor exDbPoor (by decide) (by decide) (by decide) (by decide)

/-- Every run of `fact_check_text` produces one of three effect traces:
nothing (aborted before the external calls), search + AI call only (the
500 path), or the full successful sequence search, AI call, record insert,
charge — and in the successful case the inserted record is in the final
collection with the fresh id, the charged user's id and the charged
amount. -/
theorem fact_check_text_cases (db : DB) (env : FCEnv) (sid : String)
    (text? : Option String) :
    (fact_check_text db env sid text?).trace = [] ∨
    (∃ q, (fact_check_text db env sid text?).trace =
      [.searched q, .aiCalled]) ∨
    (∃ q u1 cost record,
      (fact_check_text db env sid text?).trace =
        [.searched q, .aiCalled, .recordInserted env.fresh_id,
         .charged u1 cost] ∧
      record ∈ (fact_check_text db env sid text?).state.fact_checks ∧
      record.id = env.fresh_id ∧ record.user_id = u1 ∧
      record.credits_used = cost) := by
  unfold fact_check_text
  split
  · left; rfl
  · split
    · left; rfl
    · split
      · left; rfl
      · dsimp only
        split
        · left; rfl
        · split
          · left; rfl
          · split
            · right; left
              exact ⟨_, rfl⟩
            · right; right
              exact ⟨_, _, _, _, rfl,
                List.mem_append_right _ (List.mem_singleton_self _),
                rfl, rfl, rfl⟩

/-- C7: whenever a charge event occurs in a run of `fact_check_text`, the
record insertion for the request's fresh id occurs strictly earlier in the
effect sequence, and the final fact-check collection contains a record
with that id, the charged user and the charged amount. -/
theorem charge_only_after_record (db : DB) (env : FCEnv) (sid : String)
    (text? : Option String) (uid : String) (amt : Nat)
    (h : Event.charged uid amt ∈ (fact_check_text db env sid text?).trace) :
    (∃ i j : Nat, i < j ∧
      (fact_check_text db env sid text?).trace[i]? =
        some (Event.recordInserted env.fresh_id) ∧
      (fact_check_text db env sid text?).trace[j]? =
        some (Event.charged uid amt)) ∧
    ∃ r ∈ (fact_check_text db env sid text?).state.fact_checks,
      r.id = env.fresh_id ∧ r.user_id = uid ∧ r.credits_used = amt := by
  rcases fact_check_text_cases db env sid text? with
    h0 | ⟨q, h2⟩ | ⟨q, u1, cost, record, htr, hmem, hid, huid, hcost⟩
  · rw [h0] at h; cases h
  · rw [h2] at h; simp at h
  · rw [htr] at h
    simp only [List.mem_cons, List.not_mem_nil, or_false] at h
    rcases h with h | h | h | h
    · cases h
    · cases h
    · cases h
    · injection h with huid' hamt
      subst huid'
      subst hamt
      refine ⟨⟨2, 3, by omega, ?_, ?_⟩, record, hmem, hid, huid, hcost⟩
      · rw [htr]; rfl
      · rw [htr]; rfl

/-- A user with a full weekly allotment. -/
def exUserRich : User :=
  ⟨"u1", "r@example.com", "Rae", "free", 30, some 1000, 0, true⟩

def exSessionRich : Session := ⟨"sr", "u1", 0, some 500⟩

def exDbRich : DB := ⟨[exUserRich], [exSessionRich], []⟩

/-- Environment for a successful degraded-mode run (no search key, no AI
key): search returns `[]`, the adjudicator returns the neutral verdict. -/
def exEnvRich : FCEnv :=
  ⟨100, false, .exn "down", false, .exn "down", "fid1"⟩

/-- Witness for C7: a successful run charges, and the theorem places the
record insertion strictly before the charge and exhibits the record. -/
theorem charge_only_after_record_witness :
    Event.charged "u1" 1 ∈
      (fact_check_text exDbRich exEnvRich "sr" (some "hello")).trace ∧
    ((∃ i j : Nat, i < j ∧
      (fact_check_text exDbRich exEnvRich "sr" (some "hello")).trace[i]? =
        some (Event.recordInserted exEnvRich.fresh_id) ∧
      (fact_check_text exDbRich exEnvRich "sr" (some "hello")).trace[j]? =
        some (Event.charged "u1" 1)) ∧
    ∃ r ∈ (fact_check_text exDbRich exEnvRich "sr"
        (some "hello")).state.fact_checks,
      r.id = exEnvRich.fresh_id ∧ r.user_id = "u1" ∧ r.credits_used = 1) :=
  ⟨by decide,
   charge_only_after_record exDbRich exEnvRich "sr" (some "hello") "u1" 1
     (by decide)⟩

/-- C9 (amended): the history listing returns at most 20 records, ordered
descending (non-increasing, ties permitted) by creation time, and every
returned record belongs to the requesting user. -/
theorem history_listing (db : DB) (uid : String) :
    (get_user_fact_checks db uid).length ≤ 20 ∧
    List.Sorted descByCreated (get_user_fact_checks db uid) ∧
    ∀ r ∈ get_user_fact_checks db uid, r.user_id = uid := by
  refine ⟨?_, ?_, ?_⟩
  · exact List.length_take_le 20 _
  · exact List.Pairwise.sublist (List.take_sublist 20 _)
      (List.sorted_insertionSort descByCreated _)
  · intro r hr
    have h1 : r ∈ (db.fact_checks.filter
        (fun x => x.user_id == uid)).insertionSort descByCreated :=
      List.Sublist.mem hr (List.take_sublist 20 _)
    have h2 := (List.mem_insertionSort descByCreated).mp h1
    exact eq_of_beq
      (List.of_mem_filter (p := fun x : FactCheck => x.user_id == uid) h2)

/-- Two records of the same user sharing one creation timestamp. -/
def exRec1 : FactCheck :=
  ⟨"f1", "u", "text one", mkRat 1 2, .str "r", some [], 1, 5⟩

def exRec2 : FactCheck :=
  ⟨"f2", "u", "text two", mkRat 1 2, .str "r", some [], 1, 5⟩

def exDbHist : DB := ⟨[], [], [exRec1, exRec2]⟩

/-- Counterexample to C9 as stated: with two records created at the same
timestamp, the listing is *not* strictly descending by creation time (the
adjacent pair ties), so "ordered strictly descending" fails on this
concrete database. -/
theorem history_not_strictly_descending :
    ¬ List.Pairwise (fun a b => b.created_at < a.created_at)
      (get_user_fact_checks exDbHist "u") := by
  have hout : get_user_fact_checks exDbHist "u" = [exRec1, exRec2] := by decide
  rw [hout]
  intro h
  rcases h with - | ⟨hab, -⟩
  exact absurd (hab exRec2 (List.mem_singleton_self _)) (by decide)

/-- Witness for C9 (amended): on the two-record database the listing has at
most 20 entries and the first returned record belongs to the user. -/
theorem history_listing_witness :
    (get_user_fact_checks exDbHist "u").length ≤ 20 ∧
    exRec1.user_id = "u" :=
  ⟨(history_listing exDbHist "u").1,
   (history_listing exDbHist "u").2.2 exRec1 (by decide)⟩

end DubCheck
